import Mathlib

/-!
Verification of the Smart Colab agent (src/agent/mcp_smart_colab_v2.py).

This file shallowly embeds the checkpoint store, the transport dispatcher
(`make_request`), the chunked execution engine (`run_chunked_operation`) and the
code-materialization step, and proves or refutes the frozen claims about them.

Conventions of the embedding:
- Python JSON values are modelled by the inductive `Json` below (numbers as
  `Int`: every numeric value the modelled code stores or reads is a Python int;
  floats occur only in the `progress_pct` response field, whose exact IEEE
  value no claim depends on, so that one field is carried exactly as a `Rat`
  without the final one-decimal rounding).
- The checkpoint directory is modelled as `Store : String → Option Json`,
  mapping a file name to the parsed content of that file.  `json.dump`
  followed by `json.load` of the same (JSON-representable) value yielding that
  value back is a property of the external json library and is what this
  file-as-parsed-value representation encodes.
- The network is modelled by an explicit `HttpOutcome` argument describing what
  the single `requests` call did (response with status/body, or which exception
  it raised); `make_request` translates that outcome exactly as the Python
  `try/except` does.
- The one Python exception the embedded code itself can raise
  (`ZeroDivisionError` in `progress_pct` when `n_iterations = 0`) is made
  explicit with an `Except` result; it happens after the dispatch and after the
  checkpoint write, which the embedding preserves by returning the new store
  and the dispatch list separately from the possibly-raising return value.
-/

/-- JSON values as produced by Python's json module, with ints for numbers
(see the header comment: the modelled code never stores a float). -/
inductive Json where
  | null : Json
  | bool (b : Bool) : Json
  | num (n : Int) : Json
  | str (s : String) : Json
  | arr (elems : List Json) : Json
  | obj (fields : List (String × Json)) : Json

/-- Association-list lookup, first match wins (Python dicts have unique keys,
so the first match is the only one for dicts written by the modelled code). -/
def assocGet {α : Type} : List (String × α) → String → Option α
  | [], _ => none
  | (k, v) :: rest, key => if k = key then some v else assocGet rest key

/-- Python dict lookup on a JSON object; `none` on a missing key.  Applied to a
non-object this returns `none`, matching the use sites below where Python would
only ever see objects (a non-dict would raise AttributeError at `.get`, which
no modelled path reaches). -/
def Json.lookup : Json → String → Option Json
  | .obj fields, key => assocGet fields key
  | _, _ => none

/-- Python `d.get(key, default)`. -/
def Json.getD (j : Json) (key : String) (d : Json) : Json :=
  (j.lookup key).getD d

/-- Python truthiness of a JSON value (`if checkpoint:`). -/
def Json.truthy : Json → Bool
  | .null => false
  | .bool b => b
  | .num n => n != 0
  | .str s => !s.isEmpty
  | .arr elems => !elems.isEmpty
  | .obj fields => !fields.isEmpty

/-- Reads a JSON value as a Python int.  The modelled code stores `completed`
as an int (Python bools are ints, hence the bool case); any other stored value
would make the subsequent `min` raise TypeError in Python, a path no claim
exercises, so the remaining cases default to the `.get` default 0. -/
def Json.asPyInt : Json → Int
  | .num n => n
  | .bool b => if b then 1 else 0
  | _ => 0

/-- The checkpoint directory: file name ↦ parsed JSON content of that file. -/
abbrev Store := String → Option Json

/-- Source `get_checkpoint_path`: `f"{operation}_{datetime.now().strftime('%Y%m%d')}.json"`.
The current date is passed explicitly. -/
def get_checkpoint_path (operation date : String) : String :=
  operation ++ "_" ++ date ++ ".json"

/-- Source `save_checkpoint`: writes `{"timestamp": ..., "operation": operation,
"data": data}` to the checkpoint path and returns the path.  `datetime.now()`
is passed explicitly as `timestamp` (and its date as `date`). -/
def save_checkpoint (st : Store) (date timestamp : String) (operation : String)
    (data : Json) : Store × String :=
  let path := get_checkpoint_path operation date
  (fun p => if p = path then
      some (.obj [("timestamp", .str timestamp),
                  ("operation", .str operation),
                  ("data", data)])
    else st p,
   path)

/-- Source `load_checkpoint`: returns the parsed file content for today's path
if the file exists, else `None`. -/
def load_checkpoint (st : Store) (date operation : String) : Option Json :=
  st (get_checkpoint_path operation date)

/-- Source `TIMEOUTS` table. -/
def TIMEOUTS : List (String × Int) :=
  [("quick", 30), ("normal", 120), ("long", 300), ("max", 600)]

/-- Lookup in `TIMEOUTS`; the modelled code only uses keys present in the
table, so the 0 default is never exercised (Python would raise KeyError). -/
def TIMEOUTS_at (key : String) : Int :=
  (assocGet TIMEOUTS key).getD 0

/-- What the single `requests.get/post` call inside `make_request` did:
either a response arrived (status, raw text body, parsed JSON body) or one of
the exceptions caught by `make_request` was raised.  `elapsed_s` records how
long a timed-out call actually took; the source never sees this number, which
is the point of claim C9. -/
inductive HttpOutcome where
  | response (status : Int) (text : String) (body : Json)
  | timeoutRaised (elapsed_s : Int)
  | connectionRaised
  | otherRaised (message : String)

/-- The closed set of dictionaries `make_request` can return, one constructor
per return site in the source. -/
inductive ReqResult where
  | success (data : Json)
  | httpError (status : Int) (body : String)
  | timeout (suggestion : String)
  | connectionFailed (url : String)
  | otherFailure (error : String)

/-- Python `result["success"]`. -/
def ReqResult.isSuccess : ReqResult → Bool
  | .success _ => true
  | _ => false

/-- Python `result.get("error")` on the failure dictionaries (`"HTTP {status}"`,
`"TIMEOUT"`, `"CONNECTION_FAILED"`, `str(e)`).  On success the key is absent
(`None`); the modelled code only reads it under `not result["success"]`, so the
success case's value is irrelevant and set to `""`. -/
def ReqResult.errorString : ReqResult → String
  | .success _ => ""
  | .httpError status _ => "HTTP " ++ toString status
  | .timeout _ => "TIMEOUT"
  | .connectionFailed _ => "CONNECTION_FAILED"
  | .otherFailure e => e

/-- Python `result.get("data", {}).get("stdout", "")`: the stdout string of a
successful response, `""` otherwise.  A non-string `"stdout"` value would make
the Python slice raise, a path no claim exercises. -/
def ReqResult.stdoutString : ReqResult → String
  | .success d =>
    match d.lookup "stdout" with
    | some (.str s) => s
    | _ => ""
  | _ => ""

/-- Source `make_request`: issues one request (abstracted into `outcome`) and
classifies what happened, exactly mirroring the `try/except` in the source.
`method` and `endpoint` shape the request itself, which `outcome` abstracts. -/
def make_request (colab_url method endpoint : String) (outcome : HttpOutcome)
    (timeout : Int) : ReqResult :=
  match outcome with
  | .response status text body =>
    if status = 200 then .success body else .httpError status (text.take 500)
  | .timeoutRaised _ => .timeout ("Operation took longer than " ++ toString timeout ++ "s")
  | .connectionRaised => .connectionFailed colab_url
  | .otherRaised msg => .otherFailure msg

/-- Header line of a first-run batch, ending just before the for-loop:
the part of the source f-string `"\n{setup_code}\n\n# Chunked execution:
iterations {start_idx} to {end_idx-1}\n"` after the setup code. -/
def chunk_hdr_first (start_idx end_idx : Int) : String :=
  "\n\n# Chunked execution: iterations " ++ toString start_idx ++ " to "
    ++ toString (end_idx - 1) ++ "\n"

/-- Header of a resumed batch: `"\n# Resuming chunked execution: iterations
{start_idx} to {end_idx-1}\n"`. -/
def chunk_hdr_resume (start_idx end_idx : Int) : String :=
  "\n# Resuming chunked execution: iterations " ++ toString start_idx ++ " to "
    ++ toString (end_idx - 1) ++ "\n"

/-- The remote for-loop block common to both branches of the source f-strings:
`"for i in range({start_idx}, {end_idx}):\n    {loop_code}\n"`.  Note that
`loop_code` is pasted verbatim, exactly once, as the loop body; the iteration
variable `i` is bound by the remote Python `for`, not substituted here. -/
def chunk_body (loop_code : String) (start_idx end_idx : Int) : String :=
  "for i in range(" ++ toString start_idx ++ ", " ++ toString end_idx ++ "):\n    "
    ++ loop_code ++ "\n"

/-- Trailing progress print of both f-strings:
`"\nprint(f\"Completed iterations {start_idx} to {end_idx-1}\")\n"` (the
braces are substituted client-side by the outer f-string, so the dispatched
text contains the concrete numbers). -/
def chunk_tail (start_idx end_idx : Int) : String :=
  "\nprint(f\"Completed iterations " ++ toString start_idx ++ " to "
    ++ toString (end_idx - 1) ++ "\")\n"

/-- Source `full_code` construction in `run_chunked_operation`: first run
(`start_idx == 0`) prepends the one-time setup code, a resumed run does not. -/
def build_full_code (setup_code loop_code : String) (start_idx end_idx : Int) : String :=
  if start_idx = 0 then
    ("\n" ++ setup_code ++ chunk_hdr_first start_idx end_idx)
      ++ chunk_body loop_code start_idx end_idx ++ chunk_tail start_idx end_idx
  else
    chunk_hdr_resume start_idx end_idx
      ++ chunk_body loop_code start_idx end_idx ++ chunk_tail start_idx end_idx

/-- Source lines 315-318 of `run_chunked_operation`: load the checkpoint and
read `checkpoint.get("data", {}).get("completed", 0)` if it is truthy,
else start at 0. -/
def start_idx_of (st : Store) (date checkpoint_name : String) : Int :=
  match load_checkpoint st date checkpoint_name with
  | none => 0
  | some cp =>
    if cp.truthy then ((cp.getD "data" (.obj [])).getD "completed" (.num 0)).asPyInt
    else 0

/-- One outbound request as issued through `make_request`, recording the
arguments of the call: `make_request("POST", "/execute",
timeout=TIMEOUTS["long"]+30, json={"code": full_code, "timeout":
TIMEOUTS["long"]})`. -/
structure DispatchCall where
  method : String
  endpoint : String
  timeout : Int
  code : String
  code_timeout : Int

/-- The one exception the embedded code itself can raise: the
`ZeroDivisionError` from `round(end_idx / n_iterations * 100, 1)` when
`n_iterations == 0`. -/
inductive PyError where
  | zeroDivisionError

/-- The dictionary returned by `run_chunked_operation`, field for field. -/
structure ChunkResult where
  completed : Int
  remaining : Int
  progress_pct : Rat
  output : String
  success : Bool
  can_continue : Bool
  next_command : Option String
deriving DecidableEq

/-- Everything observable about one `run_chunked_operation` call: the updated
checkpoint directory, the outbound requests issued, and the returned value or
raised exception.  Store update and dispatch happen before the return
expression is evaluated, so they are recorded even when `ret` is an error. -/
structure RunChunkedOutput where
  store : Store
  dispatches : List DispatchCall
  ret : Except PyError ChunkResult

/-- Source `run_chunked_operation` (tool 5).  `outcome` abstracts what the one
network call did, `timestamp`/`date` the two uses of `datetime.now()`,
`colab_url` the module-level `COLAB_URL`.  The `progress_pct` field carries
the exact ratio `end_idx / n_iterations * 100` (see the header comment on
floats); its `ZeroDivisionError` at `n_iterations = 0` is modelled exactly. -/
def run_chunked_operation (outcome : HttpOutcome) (colab_url : String) (st : Store)
    (timestamp date : String) (setup_code loop_code : String)
    (n_iterations batch_size : Int) (checkpoint_name : String) : RunChunkedOutput :=
  let start_idx := start_idx_of st date checkpoint_name
  let end_idx := min (start_idx + batch_size) n_iterations
  let full_code := build_full_code setup_code loop_code start_idx end_idx
  let result := make_request colab_url "POST" "/execute" outcome (TIMEOUTS_at "long" + 30)
  let call : DispatchCall :=
    ⟨"POST", "/execute", TIMEOUTS_at "long" + 30, full_code, TIMEOUTS_at "long"⟩
  let st' := (save_checkpoint st date timestamp checkpoint_name
    (.obj [("completed", .num end_idx),
           ("total", .num n_iterations),
           ("last_batch_output",
             .str (if result.isSuccess then result.stdoutString.take 1000 else ""))])).1
  let ret : Except PyError ChunkResult :=
    if n_iterations = 0 then .error .zeroDivisionError
    else .ok ⟨end_idx,
              n_iterations - end_idx,
              (end_idx : Rat) / (n_iterations : Rat) * 100,
              if result.isSuccess then result.stdoutString else result.errorString,
              result.isSuccess,
              decide (end_idx < n_iterations),
              if end_idx < n_iterations then
                some ("run_chunked_operation(..., checkpoint_name=\x27"
                  ++ checkpoint_name ++ "\x27)")
              else none⟩
  ⟨st', [call], ret⟩

/-- Calling `run_chunked_operation` with the `checkpoint_name` parameter
omitted: the source declares `checkpoint_name: str = "chunked_op"`. -/
def run_chunked_operation_default (outcome : HttpOutcome) (colab_url : String)
    (st : Store) (timestamp date : String) (setup_code loop_code : String)
    (n_iterations batch_size : Int) : RunChunkedOutput :=
  run_chunked_operation outcome colab_url st timestamp date setup_code loop_code
    n_iterations batch_size "chunked_op"

/-- The `completed` value recorded in the checkpoint for `checkpoint_name`,
read back the way the source reads it. -/
def recorded_completed (st : Store) (date checkpoint_name : String) : Option Json :=
  (load_checkpoint st date checkpoint_name).bind fun cp =>
    (cp.lookup "data").bind fun d => d.lookup "completed"

/-- Source `get_checkpoint` (tool 10): existence flag plus the record.  The
Python `{"exists": True, **checkpoint}` spread is modelled by prepending the
flag; the written records never contain a top-level `"exists"` key, so the
first-match lookup agrees with Python's merge. -/
def get_checkpoint (st : Store) (date operation : String) : Json :=
  match load_checkpoint st date operation with
  | some cp =>
    if cp.truthy then
      .obj (("exists", .bool true) ::
        (match cp with | .obj fields => fields | _ => []))
    else
      .obj [("exists", .bool false),
            ("message", .str ("No checkpoint found for \x27" ++ operation ++ "\x27"))]
  | none =>
    .obj [("exists", .bool false),
          ("message", .str ("No checkpoint found for \x27" ++ operation ++ "\x27"))]

/-- Substring test on character lists: does `pat` occur contiguously in the
second argument? -/
def listContainsSub (pat : List Char) : List Char → Bool
  | [] => pat.isPrefixOf []
  | c :: rest => pat.isPrefixOf (c :: rest) || listContainsSub pat rest

/-- Substring test on strings. -/
def strContainsSub (s pat : String) : Bool :=
  listContainsSub pat.data s.data

/-- Number of (possibly overlapping) occurrences of `pat` in the second list. -/
def listCountSub (pat : List Char) : List Char → Nat
  | [] => if pat.isPrefixOf [] then 1 else 0
  | c :: rest => (if pat.isPrefixOf (c :: rest) then 1 else 0) + listCountSub pat rest

/-- Occurrence count of `pat` in `s`. -/
def strCountSub (s pat : String) : Nat :=
  listCountSub pat.data s.data

/-- Replace every occurrence of `pat` by `repl`, structurally recursive on a
fuel bound (one unit per character of the subject, which suffices since each
step consumes at least one character). -/
def replaceFuel (pat repl : List Char) : Nat → List Char → List Char
  | 0, s => s
  | _ + 1, [] => []
  | fuel + 1, c :: rest =>
    if pat.isPrefixOf (c :: rest) ∧ pat ≠ [] then
      repl ++ replaceFuel pat repl fuel ((c :: rest).drop pat.length)
    else
      c :: replaceFuel pat repl fuel rest

/-- Modelled from the spec: "The `loop_code` template is instantiated once per
index in the range, substituting the current index into any index placeholder
(such as `{i}`)" — the per-index instantiation of the template, used to state
the claim C7 makes about the materialized code. -/
def spec_loop_instantiation (loop_code : String) (i : Int) : String :=
  String.mk (replaceFuel "{i}".data (toString i).data loop_code.data.length
    loop_code.data)

/-- Fixed parameters of a sequence of `run_chunked_operation` calls with the
same arguments (only the per-call network outcome and timestamp vary). -/
structure ChunkEnv where
  outcomes : Nat → HttpOutcome
  timestamps : Nat → String
  colab_url : String
  date : String
  setup_code : String
  loop_code : String
  n_iterations : Int
  batch_size : Int
  checkpoint_name : String

/-- The checkpoint directory after `k` consecutive `run_chunked_operation`
calls with the parameters of `env`, starting from `st`. -/
def seqStore (env : ChunkEnv) (st : Store) : Nat → Store
  | 0 => st
  | k + 1 =>
    (run_chunked_operation (env.outcomes k) env.colab_url (seqStore env st k)
      (env.timestamps k) env.date env.setup_code env.loop_code
      env.n_iterations env.batch_size env.checkpoint_name).store

/-- The observable output of call number `k` (0-indexed) in the sequence. -/
def seqCall (env : ChunkEnv) (st : Store) (k : Nat) : RunChunkedOutput :=
  run_chunked_operation (env.outcomes k) env.colab_url (seqStore env st k)
    (env.timestamps k) env.date env.setup_code env.loop_code
    env.n_iterations env.batch_size env.checkpoint_name

/-- A checkpoint directory in which `chunked_op` already records
`completed = 10` of `total = 10` on 2026-01-01 — the state after the final
batch of a 10-iteration job. -/
def c3Store : Store := fun p =>
  if p = "chunked_op_20260101.json" then
    some (.obj [("timestamp", .str "t0"), ("operation", .str "chunked_op"),
      ("data", .obj [("completed", .num 10), ("total", .num 10),
                     ("last_batch_output", .str "")])])
  else none

/-- A concrete sequence environment: total 25 iterations, batch size 10,
every dispatch succeeding — the spec's own scenario (three calls: 10, 20, 25). -/
def c4Env : ChunkEnv :=
  ⟨fun _ => .response 200 "" (.obj [("stdout", .str "ok")]), fun _ => "t",
   "u", "20260101", "x=1", "print(i)", 25, 10, "job"⟩

theorem isPrefixOf_append (p b : List Char) : p.isPrefixOf (p ++ b) = true := by
  induction p with
  | nil => simp [List.isPrefixOf]
  | cons c rest ih => simp [List.isPrefixOf, ih]

theorem listContainsSub_append (a p b : List Char) :
    listContainsSub p (a ++ p ++ b) = true := by
  induction a with
  | nil =>
    simp only [List.nil_append]
    cases hpb : p ++ b with
    | nil =>
      have hp : p = [] := by
        cases p with
        | nil => rfl
        | cons c r => simp at hpb
      have hb : b = [] := by
        subst hp
        simpa using hpb
      subst hp; subst hb
      simp [listContainsSub, List.isPrefixOf]
    | cons c rest =>
      simp only [listContainsSub]
      rw [← hpb, isPrefixOf_append]
      simp
  | cons c rest ih =>
    show (p.isPrefixOf (c :: (rest ++ p ++ b)) || listContainsSub p (rest ++ p ++ b)) = true
    rw [ih]
    simp

theorem strContainsSub_append (a p b : String) :
    strContainsSub (a ++ p ++ b) p = true := by
  have h : (a ++ p ++ b).data = a.data ++ p.data ++ b.data := by
    simp [String.data_append]
  simp only [strContainsSub, h]
  exact listContainsSub_append a.data p.data b.data

/-- Read-back lemma: immediately after a `run_chunked_operation` call, the
checkpoint for its name records `completed = min(start + batch_size, total)`,
and that is also the start index the next call with the same name will use. -/
theorem start_idx_of_after_run (outcome : HttpOutcome) (colab_url : String)
    (st : Store) (timestamp date setup_code loop_code : String)
    (n_iterations batch_size : Int) (checkpoint_name : String) :
    start_idx_of ((run_chunked_operation outcome colab_url st timestamp date
        setup_code loop_code n_iterations batch_size checkpoint_name).store)
      date checkpoint_name
      = min (start_idx_of st date checkpoint_name + batch_size) n_iterations := by
  simp only [run_chunked_operation, start_idx_of, load_checkpoint, save_checkpoint,
    if_pos rfl]
  simp [Json.truthy, Json.getD, Json.lookup, assocGet, Json.asPyInt]

/-- Read-back of the raw recorded value after a run. -/
theorem recorded_completed_after_run (outcome : HttpOutcome) (colab_url : String)
    (st : Store) (timestamp date setup_code loop_code : String)
    (n_iterations batch_size : Int) (checkpoint_name : String) :
    recorded_completed ((run_chunked_operation outcome colab_url st timestamp date
        setup_code loop_code n_iterations batch_size checkpoint_name).store)
      date checkpoint_name
      = some (.num (min (start_idx_of st date checkpoint_name + batch_size)
          n_iterations)) := by
  simp only [run_chunked_operation, recorded_completed, load_checkpoint,
    save_checkpoint, if_pos rfl]
  simp [Json.lookup, assocGet]

/-- After `k` calls from a fresh store, the resume offset is `min(k*b, n)`. -/
theorem seq_start (env : ChunkEnv) (st : Store)
    (hfresh : st (get_checkpoint_path env.checkpoint_name env.date) = none)
    (hn : 0 < env.n_iterations) (hb : 0 < env.batch_size) :
    ∀ k : Nat, start_idx_of (seqStore env st k) env.date env.checkpoint_name
      = min ((k : Int) * env.batch_size) env.n_iterations := by
  intro k
  induction k with
  | zero =>
    simp only [seqStore, start_idx_of, load_checkpoint, hfresh, Nat.cast_zero, zero_mul]
    omega
  | succ k ih =>
    simp only [seqStore, start_idx_of_after_run, ih]
    have hc : ((k + 1 : Nat) : Int) * env.batch_size
        = (k : Int) * env.batch_size + env.batch_size := by
      push_cast
      ring
    rw [hc]
    omega

/-- Unfolding lemma: the returned value of `run_chunked_operation`, written
out with the start index and the request result made explicit. -/
theorem run_chunked_ret (outcome : HttpOutcome) (colab_url : String) (st : Store)
    (timestamp date setup_code loop_code : String) (n_iterations batch_size : Int)
    (checkpoint_name : String) :
    (run_chunked_operation outcome colab_url st timestamp date setup_code loop_code
        n_iterations batch_size checkpoint_name).ret
      = (if n_iterations = 0 then .error .zeroDivisionError
         else .ok ⟨min (start_idx_of st date checkpoint_name + batch_size) n_iterations,
            n_iterations - min (start_idx_of st date checkpoint_name + batch_size) n_iterations,
            ((min (start_idx_of st date checkpoint_name + batch_size) n_iterations : Int) : Rat)
              / (n_iterations : Rat) * 100,
            (if (make_request colab_url "POST" "/execute" outcome (TIMEOUTS_at "long" + 30)).isSuccess
             then (make_request colab_url "POST" "/execute" outcome (TIMEOUTS_at "long" + 30)).stdoutString
             else (make_request colab_url "POST" "/execute" outcome (TIMEOUTS_at "long" + 30)).errorString),
            (make_request colab_url "POST" "/execute" outcome (TIMEOUTS_at "long" + 30)).isSuccess,
            decide (min (start_idx_of st date checkpoint_name + batch_size) n_iterations < n_iterations),
            (if min (start_idx_of st date checkpoint_name + batch_size) n_iterations < n_iterations
             then some ("run_chunked_operation(..., checkpoint_name=\x27" ++ checkpoint_name ++ "\x27)")
             else none)⟩) := rfl

/-- Unfolding lemma: the checkpoint directory after a `run_chunked_operation`
call. -/
theorem run_chunked_store (outcome : HttpOutcome) (colab_url : String) (st : Store)
    (timestamp date setup_code loop_code : String) (n_iterations batch_size : Int)
    (checkpoint_name : String) :
    (run_chunked_operation outcome colab_url st timestamp date setup_code loop_code
        n_iterations batch_size checkpoint_name).store
      = fun p => if p = get_checkpoint_path checkpoint_name date then
          some (.obj [("timestamp", .str timestamp),
                      ("operation", .str checkpoint_name),
                      ("data", .obj [
                        ("completed", .num (min (start_idx_of st date checkpoint_name
                            + batch_size) n_iterations)),
                        ("total", .num n_iterations),
                        ("last_batch_output", .str
                          (if (make_request colab_url "POST" "/execute" outcome
                                (TIMEOUTS_at "long" + 30)).isSuccess
                           then (make_request colab_url "POST" "/execute" outcome
                                (TIMEOUTS_at "long" + 30)).stdoutString.take 1000
                           else ""))])])
        else st p := rfl

/-- Unfolding lemma: the single request a `run_chunked_operation` call issues. -/
theorem run_chunked_dispatches (outcome : HttpOutcome) (colab_url : String) (st : Store)
    (timestamp date setup_code loop_code : String) (n_iterations batch_size : Int)
    (checkpoint_name : String) :
    (run_chunked_operation outcome colab_url st timestamp date setup_code loop_code
        n_iterations batch_size checkpoint_name).dispatches
      = [⟨"POST", "/execute", TIMEOUTS_at "long" + 30,
          build_full_code setup_code loop_code (start_idx_of st date checkpoint_name)
            (min (start_idx_of st date checkpoint_name + batch_size) n_iterations),
          TIMEOUTS_at "long"⟩] := rfl

/-- C6: `save_checkpoint(operation, payload)` followed on the same day by
`load_checkpoint(operation)` returns the record `{timestamp, operation, data}`
whose `data` field is exactly the payload that was saved (round-trip
fidelity), for every operation name and every JSON-representable payload. -/
theorem C6_checkpoint_round_trip (st : Store) (date timestamp operation : String)
    (payload : Json) :
    load_checkpoint (save_checkpoint st date timestamp operation payload).1 date operation
      = some (.obj [("timestamp", .str timestamp),
                    ("operation", .str operation),
                    ("data", payload)])
    ∧ (load_checkpoint (save_checkpoint st date timestamp operation payload).1
          date operation).bind (fun cp => cp.lookup "data") = some payload := by
  constructor
  · simp [load_checkpoint, save_checkpoint]
  · simp [load_checkpoint, save_checkpoint, Json.lookup, assocGet]

/-- C9: a dispatch whose underlying request timed out is classified as a
timeout whose message carries the configured deadline value; the result does
not depend on how long the call actually took. -/
theorem C9_timeout_carries_deadline (colab_url method endpoint : String)
    (elapsed elapsed' deadline : Int) :
    make_request colab_url method endpoint (.timeoutRaised elapsed) deadline
      = .timeout ("Operation took longer than " ++ toString deadline ++ "s")
    ∧ (make_request colab_url method endpoint (.timeoutRaised elapsed) deadline).errorString
      = "TIMEOUT"
    ∧ make_request colab_url method endpoint (.timeoutRaised elapsed) deadline
      = make_request colab_url method endpoint (.timeoutRaised elapsed') deadline :=
  ⟨rfl, rfl, rfl⟩

/-- C7 (amended): the materialized batch code embeds `loop_code` verbatim,
once, as the body of a single remote `for i in range(start, end)` loop; the
per-index iteration and the binding of the index variable `i` happen on the
remote side, not by client-side per-index instantiation of the template. -/
theorem C7_loop_code_embedded_in_for (setup_code loop_code : String)
    (start_idx end_idx : Int) :
    strContainsSub (build_full_code setup_code loop_code start_idx end_idx)
      (chunk_body loop_code start_idx end_idx) = true := by
  unfold build_full_code
  by_cases h : start_idx = 0
  · rw [if_pos h]
    exact strContainsSub_append _ _ _
  · rw [if_neg h]
    exact strContainsSub_append _ _ _

/-- C7 counterexample: for `loop_code = "print({i})"` on the range `[0, 2)`
the claim as stated requires the materialized code to contain the per-index
instantiation `"print(0)"`; it does not — the template text appears exactly
once, uninstantiated. -/
theorem C7_counterexample :
    strContainsSub (build_full_code "x=1" "print({i})" 0 2)
        (spec_loop_instantiation "print({i})" 0) = false
    ∧ strCountSub (build_full_code "x=1" "print({i})" 0 2) "print({i})" = 1 := by
  constructor
  · decide
  · decide

/-- C8: the materialized batch code prepends `setup_code` (right after the
leading newline, before the iteration range) exactly when the resume offset is
0; on every later batch (`start_idx ≠ 0`) the materialized code does not
depend on `setup_code` at all, so the setup is omitted. -/
theorem C8_setup_only_on_first_batch (setup_code setup_code' loop_code : String)
    (start_idx end_idx : Int) :
    (start_idx = 0 →
      build_full_code setup_code loop_code start_idx end_idx
        = "\n" ++ setup_code ++ chunk_hdr_first start_idx end_idx
            ++ chunk_body loop_code start_idx end_idx ++ chunk_tail start_idx end_idx
      ∧ strContainsSub (build_full_code setup_code loop_code start_idx end_idx)
          setup_code = true)
    ∧ (start_idx ≠ 0 →
      build_full_code setup_code loop_code start_idx end_idx
        = build_full_code setup_code' loop_code start_idx end_idx) := by
  constructor
  · intro h
    constructor
    · simp [build_full_code, h, String.append_assoc]
    · have heq : build_full_code setup_code loop_code start_idx end_idx
          = "\n" ++ setup_code
            ++ (chunk_hdr_first start_idx end_idx ++ chunk_body loop_code start_idx end_idx
                ++ chunk_tail start_idx end_idx) := by
        simp [build_full_code, h, String.append_assoc]
      rw [heq]
      exact strContainsSub_append _ _ _
  · intro h
    simp [build_full_code, h]

theorem C8_setup_only_on_first_batch_witness :
    ((0 : Int) = 0 →
      build_full_code "x=1" "print(i)" 0 2
        = "\n" ++ "x=1" ++ chunk_hdr_first 0 2
            ++ chunk_body "print(i)" 0 2 ++ chunk_tail 0 2
      ∧ strContainsSub (build_full_code "x=1" "print(i)" 0 2) "x=1" = true)
    ∧ ((2 : Int) ≠ 0 →
      build_full_code "x=1" "print(i)" 2 4 = build_full_code "y=2" "print(i)" 2 4)
    ∧ build_full_code "x=1" "print(i)" 2 4 = build_full_code "y=2" "print(i)" 2 4 := by
  refine ⟨(C8_setup_only_on_first_batch "x=1" "y=2" "print(i)" 0 2).1, ?_, ?_⟩
  · exact (C8_setup_only_on_first_batch "x=1" "y=2" "print(i)" 2 4).2
  · exact (C8_setup_only_on_first_batch "x=1" "y=2" "print(i)" 2 4).2 (by decide)

/-- C10: omitting the `checkpoint_name` argument makes `run_chunked_operation`
behave exactly as if `"chunked_op"` had been passed, and a default-named call
records its progress under that single shared name, so a later default-named
call (of any job) resumes from the offset this call recorded. -/
theorem C10_default_checkpoint_name_shared (outcome : HttpOutcome)
    (colab_url : String) (st : Store) (timestamp date setup_code loop_code : String)
    (n_iterations batch_size : Int) :
    run_chunked_operation_default outcome colab_url st timestamp date setup_code
        loop_code n_iterations batch_size
      = run_chunked_operation outcome colab_url st timestamp date setup_code
          loop_code n_iterations batch_size "chunked_op"
    ∧ start_idx_of ((run_chunked_operation_default outcome colab_url st timestamp date
          setup_code loop_code n_iterations batch_size).store) date "chunked_op"
      = min (start_idx_of st date "chunked_op" + batch_size) n_iterations :=
  ⟨rfl, start_idx_of_after_run outcome colab_url st timestamp date setup_code
    loop_code n_iterations batch_size "chunked_op"⟩

/-- C1: for every call, whatever the dispatch outcome, the checkpoint saved
for the name records `completed = min(start + batch_size, total)`; under the
progress invariant preconditions (`0 ≤ start ≤ total`, positive batch size)
the recorded value stays within `[0, total]`, does not decrease, and the
single dispatched batch is exactly the range `[start, min(start+batch, total))`
— so `completed` advances by exactly the batch actually attempted. -/
theorem C1_checkpoint_progress_invariant (colab_url : String) (st : Store)
    (timestamp date setup_code loop_code : String) (n_iterations batch_size : Int)
    (checkpoint_name : String)
    (hc0 : 0 ≤ start_idx_of st date checkpoint_name)
    (hcn : start_idx_of st date checkpoint_name ≤ n_iterations)
    (hb : 1 ≤ batch_size) :
    ∀ outcome : HttpOutcome,
      recorded_completed ((run_chunked_operation outcome colab_url st timestamp date
          setup_code loop_code n_iterations batch_size checkpoint_name).store)
        date checkpoint_name
        = some (.num (min (start_idx_of st date checkpoint_name + batch_size)
            n_iterations))
      ∧ (run_chunked_operation outcome colab_url st timestamp date setup_code
          loop_code n_iterations batch_size checkpoint_name).dispatches
        = [⟨"POST", "/execute", TIMEOUTS_at "long" + 30,
            build_full_code setup_code loop_code (start_idx_of st date checkpoint_name)
              (min (start_idx_of st date checkpoint_name + batch_size) n_iterations),
            TIMEOUTS_at "long"⟩]
      ∧ 0 ≤ min (start_idx_of st date checkpoint_name + batch_size) n_iterations
      ∧ min (start_idx_of st date checkpoint_name + batch_size) n_iterations
          ≤ n_iterations
      ∧ start_idx_of st date checkpoint_name
          ≤ min (start_idx_of st date checkpoint_name + batch_size) n_iterations := by
  intro outcome
  exact ⟨recorded_completed_after_run outcome colab_url st timestamp date setup_code
      loop_code n_iterations batch_size checkpoint_name,
    run_chunked_dispatches outcome colab_url st timestamp date setup_code loop_code
      n_iterations batch_size checkpoint_name,
    by omega, by omega, by omega⟩

theorem C1_checkpoint_progress_invariant_witness :
    (0 ≤ start_idx_of (fun _ => none) "20260101" "job"
      ∧ start_idx_of (fun _ => none) "20260101" "job" ≤ 10
      ∧ (1 : Int) ≤ 3)
    ∧ (∀ outcome : HttpOutcome,
      recorded_completed ((run_chunked_operation outcome "u" (fun _ => none) "t"
          "20260101" "x=1" "print(i)" 10 3 "job").store) "20260101" "job"
        = some (.num (min (start_idx_of (fun _ => none) "20260101" "job" + 3) 10))
      ∧ (run_chunked_operation outcome "u" (fun _ => none) "t" "20260101" "x=1"
          "print(i)" 10 3 "job").dispatches
        = [⟨"POST", "/execute", TIMEOUTS_at "long" + 30,
            build_full_code "x=1" "print(i)" (start_idx_of (fun _ => none) "20260101" "job")
              (min (start_idx_of (fun _ => none) "20260101" "job" + 3) 10),
            TIMEOUTS_at "long"⟩]
      ∧ 0 ≤ min (start_idx_of (fun _ => none) "20260101" "job" + 3) 10
      ∧ min (start_idx_of (fun _ => none) "20260101" "job" + 3) 10 ≤ 10
      ∧ start_idx_of (fun _ => none) "20260101" "job"
          ≤ min (start_idx_of (fun _ => none) "20260101" "job" + 3) 10) :=
  ⟨⟨by decide, by decide, by decide⟩,
   C1_checkpoint_progress_invariant "u" (fun _ => none) "t" "20260101" "x=1"
     "print(i)" 10 3 "job" (by decide) (by decide) (by decide)⟩

/-- C2: the source performs no argument validation.  With `n_iterations = 0`
the call dispatches to the backend and writes a checkpoint first, then raises
an unhandled `ZeroDivisionError` computing `progress_pct` — it never returns a
validation error; with `batch_size = 0` it dispatches an empty batch and
returns a normal success-shaped result with `can_continue = true`. -/
theorem C2_no_validation_of_arguments :
    (run_chunked_operation (.response 200 "" (.obj [("stdout", .str "")])) "u"
        (fun _ => none) "t" "20260101" "x=1" "print(i)" 0 10 "valjob").dispatches.length = 1
    ∧ ((run_chunked_operation (.response 200 "" (.obj [("stdout", .str "")])) "u"
        (fun _ => none) "t" "20260101" "x=1" "print(i)" 0 10 "valjob").store
          (get_checkpoint_path "valjob" "20260101")).isSome = true
    ∧ (run_chunked_operation (.response 200 "" (.obj [("stdout", .str "")])) "u"
        (fun _ => none) "t" "20260101" "x=1" "print(i)" 0 10 "valjob").ret
      = .error .zeroDivisionError
    ∧ (run_chunked_operation (.response 200 "" (.obj [("stdout", .str "")])) "u"
        (fun _ => none) "t" "20260101" "x=1" "print(i)" 10 0 "valjob2").dispatches.length = 1
    ∧ ((run_chunked_operation (.response 200 "" (.obj [("stdout", .str "")])) "u"
        (fun _ => none) "t" "20260101" "x=1" "print(i)" 10 0 "valjob2").ret.toOption.map
          ChunkResult.completed) = some 0
    ∧ ((run_chunked_operation (.response 200 "" (.obj [("stdout", .str "")])) "u"
        (fun _ => none) "t" "20260101" "x=1" "print(i)" 10 0 "valjob2").ret.toOption.map
          ChunkResult.can_continue) = some true := by
  refine ⟨rfl, ?_, rfl, rfl, rfl, rfl⟩
  rfl

/-- C5: the capability surface does leave an error unhandled: calling
`run_chunked_operation` with `n_iterations = 0` raises `ZeroDivisionError`
instead of returning a structured result object. -/
theorem C5_unhandled_zero_division :
    (run_chunked_operation (.timeoutRaised 999) "url" (fun _ => none) "ts"
        "20260102" "setup" "body" 0 5 "cap").ret = .error .zeroDivisionError := rfl

/-- C3 counterexample: with a loaded checkpoint recording
`completed = 10 >= n_iterations = 10`, the call still issues a remote dispatch
(of the empty range), contradicting "issues no remote dispatch". -/
theorem C3_counterexample :
    start_idx_of c3Store "20260101" "chunked_op" = 10
    ∧ (run_chunked_operation (.response 200 "" (.obj [("stdout", .str "done")])) "u"
        c3Store "t1" "20260101" "x=1" "print(i)" 10 5 "chunked_op").dispatches ≠ [] := by
  constructor
  · decide
  · rw [run_chunked_dispatches]
    exact List.cons_ne_nil _ _

/-- C3 (amended): when the loaded checkpoint records
`completed >= n_iterations` (with `0 < n_iterations` and a non-negative batch
size), the call returns `can_continue = false` with `completed = total` and
`remaining = 0`, re-records `completed = total`, and repeating the call leaves
both the returned value and the checkpoint directory unchanged — but, contrary
to the claim, a remote dispatch of the empty range is still issued (exactly
one per call, see the counterexample). -/
theorem C3_resume_after_final_idempotent (outcome : HttpOutcome) (colab_url : String)
    (st : Store) (timestamp date setup_code loop_code : String)
    (n_iterations batch_size : Int) (checkpoint_name : String)
    (hn : 0 < n_iterations)
    (hstart : n_iterations ≤ start_idx_of st date checkpoint_name)
    (hb : 0 ≤ batch_size) :
    ((run_chunked_operation outcome colab_url st timestamp date setup_code loop_code
        n_iterations batch_size checkpoint_name).ret.toOption.map
          ChunkResult.can_continue) = some false
    ∧ ((run_chunked_operation outcome colab_url st timestamp date setup_code loop_code
        n_iterations batch_size checkpoint_name).ret.toOption.map
          ChunkResult.completed) = some n_iterations
    ∧ ((run_chunked_operation outcome colab_url st timestamp date setup_code loop_code
        n_iterations batch_size checkpoint_name).ret.toOption.map
          ChunkResult.remaining) = some 0
    ∧ recorded_completed ((run_chunked_operation outcome colab_url st timestamp date
        setup_code loop_code n_iterations batch_size checkpoint_name).store)
        date checkpoint_name = some (.num n_iterations)
    ∧ (run_chunked_operation outcome colab_url st timestamp date setup_code loop_code
        n_iterations batch_size checkpoint_name).dispatches.length = 1
    ∧ (run_chunked_operation outcome colab_url
        ((run_chunked_operation outcome colab_url st timestamp date setup_code loop_code
          n_iterations batch_size checkpoint_name).store)
        timestamp date setup_code loop_code n_iterations batch_size checkpoint_name).ret
      = (run_chunked_operation outcome colab_url st timestamp date setup_code loop_code
          n_iterations batch_size checkpoint_name).ret
    ∧ (run_chunked_operation outcome colab_url
        ((run_chunked_operation outcome colab_url st timestamp date setup_code loop_code
          n_iterations batch_size checkpoint_name).store)
        timestamp date setup_code loop_code n_iterations batch_size checkpoint_name).store
      = (run_chunked_operation outcome colab_url st timestamp date setup_code loop_code
          n_iterations batch_size checkpoint_name).store := by
  have e1 : min (start_idx_of st date checkpoint_name + batch_size) n_iterations
      = n_iterations := by omega
  have h2 : start_idx_of ((run_chunked_operation outcome colab_url st timestamp date
      setup_code loop_code n_iterations batch_size checkpoint_name).store)
      date checkpoint_name = n_iterations := by
    rw [start_idx_of_after_run, e1]
  have e3 : min (n_iterations + batch_size) n_iterations = n_iterations := by omega
  have hne : ¬ (n_iterations = 0) := by omega
  refine ⟨?_, ?_, ?_, ?_, ?_, ?_, ?_⟩
  · rw [run_chunked_ret, if_neg hne, e1]
    simp [Except.toOption]
  · rw [run_chunked_ret, if_neg hne, e1]
    simp [Except.toOption]
  · rw [run_chunked_ret, if_neg hne, e1]
    simp [Except.toOption]
  · rw [recorded_completed_after_run, e1]
  · rw [run_chunked_dispatches]
    rfl
  · simp only [run_chunked_ret, h2, e1, e3]
  · funext p
    have hL := congrFun (run_chunked_store outcome colab_url
      ((run_chunked_operation outcome colab_url st timestamp date setup_code loop_code
        n_iterations batch_size checkpoint_name).store)
      timestamp date setup_code loop_code n_iterations batch_size checkpoint_name) p
    have hR := congrFun (run_chunked_store outcome colab_url st timestamp date
      setup_code loop_code n_iterations batch_size checkpoint_name) p
    simp only [hL, hR, h2, e1, e3]
    by_cases hp : p = get_checkpoint_path checkpoint_name date
    · simp [hp]
    · simp [hp]

theorem C3_resume_after_final_idempotent_witness :
    ((0 : Int) < 10 ∧ (10 : Int) ≤ start_idx_of c3Store "20260101" "chunked_op"
      ∧ (0 : Int) ≤ 5)
    ∧ (((run_chunked_operation (.response 200 "" (.obj [("stdout", .str "done")])) "u"
        c3Store "t1" "20260101" "x=1" "print(i)" 10 5 "chunked_op").ret.toOption.map
          ChunkResult.can_continue) = some false
    ∧ ((run_chunked_operation (.response 200 "" (.obj [("stdout", .str "done")])) "u"
        c3Store "t1" "20260101" "x=1" "print(i)" 10 5 "chunked_op").ret.toOption.map
          ChunkResult.completed) = some 10
    ∧ ((run_chunked_operation (.response 200 "" (.obj [("stdout", .str "done")])) "u"
        c3Store "t1" "20260101" "x=1" "print(i)" 10 5 "chunked_op").ret.toOption.map
          ChunkResult.remaining) = some 0
    ∧ recorded_completed ((run_chunked_operation (.response 200 ""
        (.obj [("stdout", .str "done")])) "u" c3Store "t1" "20260101" "x=1" "print(i)"
        10 5 "chunked_op").store) "20260101" "chunked_op" = some (.num 10)
    ∧ (run_chunked_operation (.response 200 "" (.obj [("stdout", .str "done")])) "u"
        c3Store "t1" "20260101" "x=1" "print(i)" 10 5 "chunked_op").dispatches.length = 1
    ∧ (run_chunked_operation (.response 200 "" (.obj [("stdout", .str "done")])) "u"
        ((run_chunked_operation (.response 200 "" (.obj [("stdout", .str "done")])) "u"
          c3Store "t1" "20260101" "x=1" "print(i)" 10 5 "chunked_op").store)
        "t1" "20260101" "x=1" "print(i)" 10 5 "chunked_op").ret
      = (run_chunked_operation (.response 200 "" (.obj [("stdout", .str "done")])) "u"
          c3Store "t1" "20260101" "x=1" "print(i)" 10 5 "chunked_op").ret
    ∧ (run_chunked_operation (.response 200 "" (.obj [("stdout", .str "done")])) "u"
        ((run_chunked_operation (.response 200 "" (.obj [("stdout", .str "done")])) "u"
          c3Store "t1" "20260101" "x=1" "print(i)" 10 5 "chunked_op").store)
        "t1" "20260101" "x=1" "print(i)" 10 5 "chunked_op").store
      = (run_chunked_operation (.response 200 "" (.obj [("stdout", .str "done")])) "u"
          c3Store "t1" "20260101" "x=1" "print(i)" 10 5 "chunked_op").store) :=
  ⟨⟨by decide, by decide, by decide⟩,
   C3_resume_after_final_idempotent (.response 200 "" (.obj [("stdout", .str "done")]))
     "u" c3Store "t1" "20260101" "x=1" "print(i)" 10 5 "chunked_op"
     (by decide) (by decide) (by decide)⟩

/-- Ceiling-division bounds: for positive `n` and `b`, `K = (n + b - 1) / b`
is the least integer with `n ≤ K * b`. -/
theorem ceil_div_bounds (n b : Int) (hn : 0 < n) (hb : 0 < b) :
    n ≤ ((n + b - 1) / b) * b ∧ (((n + b - 1) / b) - 1) * b < n := by
  have h := Int.ediv_add_emod (n + b - 1) b
  have h2 := Int.emod_nonneg (n + b - 1) (by omega : b ≠ 0)
  have h3 := Int.emod_lt_of_pos (n + b - 1) hb
  constructor
  · nlinarith [h, h2, h3]
  · nlinarith [h, h2, h3]

/-- C4: starting from a fresh checkpoint with `total > 0` and `batch_size > 0`,
call number `i` (1-indexed) of a sequence of identical `run_chunked_operation`
calls returns `completed = min(i*batch, total)`; writing `K =
ceil(total/batch) = (total + batch - 1) / batch`, every call `i < K` returns
`completed = i*batch` and `can_continue = true` (so `completed` advances by
exactly `batch_size` per call), and call `K` is exactly the first whose
`can_continue` is `false`, with `completed = total`. -/
theorem C4_chunk_schedule (env : ChunkEnv) (st : Store)
    (hfresh : st (get_checkpoint_path env.checkpoint_name env.date) = none)
    (hn : 0 < env.n_iterations) (hb : 0 < env.batch_size) :
    ∀ i : Nat, 1 ≤ i →
      (i : Int) ≤ (env.n_iterations + env.batch_size - 1) / env.batch_size →
      ∃ r : ChunkResult,
        (seqCall env st (i - 1)).ret = .ok r
        ∧ r.completed = min ((i : Int) * env.batch_size) env.n_iterations
        ∧ (r.can_continue = true ↔
            (i : Int) < (env.n_iterations + env.batch_size - 1) / env.batch_size)
        ∧ ((i : Int) < (env.n_iterations + env.batch_size - 1) / env.batch_size →
            r.completed = (i : Int) * env.batch_size)
        ∧ ((i : Int) = (env.n_iterations + env.batch_size - 1) / env.batch_size →
            r.completed = env.n_iterations) := by
  intro i h1 hiK
  obtain ⟨j, rfl⟩ : ∃ j, i = j + 1 := ⟨i - 1, by omega⟩
  have hK1 := (ceil_div_bounds env.n_iterations env.batch_size hn hb).1
  have hK2 := (ceil_div_bounds env.n_iterations env.batch_size hn hb).2
  have hs := seq_start env st hfresh hn hb j
  have hret := run_chunked_ret (env.outcomes j) env.colab_url (seqStore env st j)
    (env.timestamps j) env.date env.setup_code env.loop_code env.n_iterations
    env.batch_size env.checkpoint_name
  rw [hs] at hret
  have hne : ¬ (env.n_iterations = 0) := by omega
  rw [if_neg hne] at hret
  have hend : min (min ((j : Int) * env.batch_size) env.n_iterations + env.batch_size)
      env.n_iterations
      = min (((j : Int) + 1) * env.batch_size) env.n_iterations := by
    have hx : ((j : Int) + 1) * env.batch_size
        = (j : Int) * env.batch_size + env.batch_size := by ring
    rw [hx]
    omega
  rw [hend] at hret
  have hcrit : ((j : Int) + 1) * env.batch_size < env.n_iterations
      ↔ ((j : Int) + 1) < (env.n_iterations + env.batch_size - 1) / env.batch_size := by
    constructor
    · intro hlt
      by_contra hge
      push_neg at hge
      have hmul := mul_le_mul_of_nonneg_right hge (le_of_lt hb)
      linarith
    · intro hlt
      have h5 : (j : Int) + 1
          ≤ (env.n_iterations + env.batch_size - 1) / env.batch_size - 1 := by omega
      have hmul := mul_le_mul_of_nonneg_right h5 (le_of_lt hb)
      linarith
  have hidx : j + 1 - 1 = j := by omega
  rw [hidx]
  push_cast
  simp only [seqCall]
  refine ⟨_, hret, ?_, ?_, ?_, ?_⟩
  · rfl
  · dsimp only
    simp only [decide_eq_true_eq]
    have hmin : min (((j : Int) + 1) * env.batch_size) env.n_iterations
        < env.n_iterations ↔ ((j : Int) + 1) * env.batch_size < env.n_iterations := by
      omega
    rw [hmin, hcrit]
  · intro hlt
    dsimp only
    exact min_eq_left (le_of_lt (hcrit.mpr hlt))
  · intro heq
    dsimp only
    rw [heq]
    exact min_eq_right hK1

theorem C4_chunk_schedule_witness :
    ((fun _ => none : Store) (get_checkpoint_path c4Env.checkpoint_name c4Env.date) = none
      ∧ 0 < c4Env.n_iterations ∧ 0 < c4Env.batch_size)
    ∧ (∀ i : Nat, 1 ≤ i →
        (i : Int) ≤ (c4Env.n_iterations + c4Env.batch_size - 1) / c4Env.batch_size →
        ∃ r : ChunkResult,
          (seqCall c4Env (fun _ => none) (i - 1)).ret = .ok r
          ∧ r.completed = min ((i : Int) * c4Env.batch_size) c4Env.n_iterations
          ∧ (r.can_continue = true ↔
              (i : Int) < (c4Env.n_iterations + c4Env.batch_size - 1) / c4Env.batch_size)
          ∧ ((i : Int) < (c4Env.n_iterations + c4Env.batch_size - 1) / c4Env.batch_size →
              r.completed = (i : Int) * c4Env.batch_size)
          ∧ ((i : Int) = (c4Env.n_iterations + c4Env.batch_size - 1) / c4Env.batch_size →
              r.completed = c4Env.n_iterations)) :=
  ⟨⟨rfl, by decide, by decide⟩,
   C4_chunk_schedule c4Env (fun _ => none) rfl (by decide) (by decide)⟩
